import Mathlib

/-!
Verification development for the haussmeister CNMF pipeline
(`haussmeister/cnmf.py`): a shallow embedding of the array-cache
conversion (`tiffs_to_cnmf`), the contour extractor (`contour`), and the
two orchestrators (`process_data`, `process_data_patches`), together with
theorems about the behaviours the specification describes.

Modelling conventions:
- machine floats carrying pixel weights are modelled as rationals (`ℚ`);
- file-system state relevant to the cache is a record of existence flags;
- frame contents / numeric matrices handled opaquely by the external
  factorization library are an abstract type `M`;
- the external library (`ca_source_extraction`, matplotlib's `_cntr`
  tracer, `utils.zproject`) is a parameter: a record of pure functions,
  mirroring the spec's black-box call contract;
- fallible numpy operations (`np.invert(None)`, boolean indexing with a
  mismatched mask length) are modelled with `Except`.
-/

namespace Haussmeister

/-! ## Array cache (`tiffs_to_cnmf`) -/

/-- Existence flags for the two cache artifacts `<name>_Y.npy` (frame
cube) and `<name>_Yr.npy` (flattened matrix). -/
structure CacheFS where
  yExists : Bool
  yrExists : Bool
  deriving DecidableEq, Repr

/-- The slice of a `haussio` dataset that `tiffs_to_cnmf` reads: the
ordered frame-file list (frames identified by natural-number contents),
the raw contiguous binary frames, and whether the raw file is present
(`rawfile is not None and os.path.exists(rawfile)`). -/
structure HaussioData where
  filenames : List ℕ
  rawFrames : List ℕ
  rawAvailable : Bool
  deriving DecidableEq, Repr

/-- `cnmf.py` lines 56-62: if the frame list is longer than the mask, the
mask is extended with `np.ones(...).astype(np.bool)`, i.e. with `true`
("masked / exclude") entries; otherwise it is used as given. -/
def mask_full_pad (n : ℕ) (mask : List Bool) : List Bool :=
  if n > mask.length then mask ++ List.replicate (n - mask.length) true
  else mask

/-- The list comprehension of lines 63-64:
`[fn for fn, masked in zip(filenames, mask_full) if not masked]`.
`zip` truncates to the shorter operand, as in Python. -/
def keepUnmasked (frames : List ℕ) (m : List Bool) : List ℕ :=
  ((frames.zip m).filter (fun p => !p.2)).map (·.1)

/-- Lines 53-64: the tiff-path frame-file selection, including the
`mask is None` short-circuit and the padding of a short mask. -/
def selectedFilenames (hd : HaussioData) (mask : Option (List Bool)) :
    List ℕ :=
  match mask with
  | none => hd.filenames
  | some m => keepUnmasked hd.filenames (mask_full_pad hd.filenames.length m)

/-- Lines 69-70, the raw-binary path:
`read_raw().squeeze().astype(np.float32)[np.invert(mask), :, :]`.
`np.invert(None)` raises `TypeError`; a boolean index whose length does not
match the indexed axis raises `IndexError`.  A matching mask keeps exactly
the frames whose mask entry is `false`. -/
def rawSelect (frames : List ℕ) (mask : Option (List Bool)) :
    Except String (List ℕ) :=
  match mask with
  | none => .error "TypeError: bad operand type for unary invert: NoneType"
  | some m =>
    if m.length = frames.length then .ok (keepUnmasked frames m)
    else .error "IndexError: boolean index did not match indexed array"

/-- `tiffs_to_cnmf` (lines 45-81).  Returns the cache state after the call
together with `some frames` when a conversion ran (the frame contents
written to `_Y.npy` / `_Yr.npy`) and `none` when the call skipped.  The
guard of line 46 tests only `_Y.npy` (`not os.path.exists(... + '_Y.npy')
or force`); a conversion writes both artifacts (lines 75-76). -/
def tiffs_to_cnmf (hd : HaussioData) (fs : CacheFS)
    (mask : Option (List Bool)) (force : Bool) :
    Except String (CacheFS × Option (List ℕ)) :=
  if !fs.yExists || force then
    if hd.rawAvailable = false then
      .ok (⟨true, true⟩, some (selectedFilenames hd mask))
    else
      match rawSelect hd.rawFrames mask with
      | .error e => .error e
      | .ok frames => .ok (⟨true, true⟩, some frames)
  else
    .ok (fs, none)

/-- `true` on the `Except.error` constructor. -/
def isError {α : Type} : Except String α → Bool
  | .error _ => true
  | .ok _ => false

/-! ## Contour extractor (`contour`, lines 360-387) -/

/-- A traced point: a list of coordinates (the degenerate fallback uses
3-coordinate points `[0, 0, 0]`). -/
abbrev Point := List ℚ

/-- A polygon: an ordered point sequence. -/
abbrev Poly := List Point

/-- The external iso-contour tracer (`matplotlib._cntr.Cntr(y, x, Bmat)`
followed by `.trace(thr)`): given the grid dimensions, the per-pixel
inclusion-depth grid and the threshold, it returns a list of contour
polygons.  Its implementation is outside this repository; it is a
parameter of the embedding. -/
abbrev Tracer := ℕ → ℕ → List (List ℚ) → ℚ → List Poly

/-- Column `i` of the spatial weight matrix `A` (`A[:, i]`), rows being
the outer list; out-of-range entries read as `0`. -/
def col (A : List (List ℚ)) (i : ℕ) : ℕ → ℚ :=
  fun j => (A.getD j []).getD i 0

/-- `d, nr = np.shape(A)`: the row count. -/
def dOf (A : List (List ℚ)) : ℕ := A.length

/-- `d, nr = np.shape(A)`: the column (component) count. -/
def nrOf (A : List (List ℚ)) : ℕ := (A.headD []).length

/-- Insert index `j` into a list of indices kept sorted by descending
value of `v` (ties broken by ascending index). -/
def insertDesc (v : ℕ → ℚ) (j : ℕ) : List ℕ → List ℕ
  | [] => [j]
  | k :: rest =>
    if v k < v j ∨ (v j = v k ∧ j ≤ k) then j :: k :: rest
    else k :: insertDesc v j rest

/-- `np.argsort(A[:, i], axis=None)[::-1]`: the pixel indices `0..d-1`
sorted by descending weight (numpy leaves the tie order unspecified; the
model breaks ties by index). -/
def argsortDesc (v : ℕ → ℚ) (d : ℕ) : List ℕ :=
  (List.range d).foldr (insertDesc v) []

/-- `np.cumsum`: running sums of a list (no leading zero). -/
def cumsum (acc : ℚ) : List ℚ → List ℚ
  | [] => []
  | x :: xs => (acc + x) :: cumsum (acc + x) xs

/-- Lines 374-378: cumulative energy along the descending order,
normalised by its last entry (`cumEn /= cumEn[-1]`), scattered back into
pixel order (`Bvec[indx] = cumEn`; unscattered entries stay `0` from
`np.zeros(d)`). -/
def Bvec (A : List (List ℚ)) (i : ℕ) : ℕ → ℚ :=
  fun j =>
    let v := col A i
    let indx := argsortDesc v (dOf A)
    let cumEn := cumsum 0 (indx.map (fun k => v k ^ 2))
    let norm := cumEn.map (· / cumEn.getLastD 0)
    match indx.indexOf? j with
    | some k => norm.getD k 0
    | none => 0

/-- Line 379: `Bmat = np.reshape(Bvec, (d1, d2), order='F')`, so entry
`(r, c)` is `Bvec[r + c*d1]` (column-major linearization). -/
def Bmat (A : List (List ℚ)) (i d1 d2 : ℕ) : List (List ℚ) :=
  (List.range d1).map (fun r =>
    (List.range d2).map (fun c => Bvec A i (r + c * d1)))

/-- Line 385: the placeholder appended when tracing yields no contour,
`[[0, 0, 0], [0, 0, 0], [0, 0, 0]]` — three points collapsed at the
origin. -/
def fallbackPoly : Poly := [[0, 0, 0], [0, 0, 0], [0, 0, 0]]

/-- Lines 374-385, the loop body for component `i`: trace the
inclusion-depth grid at `thr`, keep the first contour if any
(`cs[0]`), otherwise the placeholder. -/
def componentPolygon (trace : Tracer) (A : List (List ℚ)) (d1 d2 : ℕ)
    (thr : ℚ) (i : ℕ) : Poly :=
  match trace d1 d2 (Bmat A i d1 d2) thr with
  | c :: _ => c
  | [] => fallbackPoly

/-- `contour(A, d1, d2, thr)` (lines 360-387): one polygon per component,
in column order.  (The sparse-to-dense conversion of lines 362-366 is a
representation change with no effect on the dense model.) -/
def contour (trace : Tracer) (A : List (List ℚ)) (d1 d2 : ℕ) (thr : ℚ) :
    List Poly :=
  (List.range (nrOf A)).map (componentPolygon trace A d1 d2 thr)

/-! ## Orchestrators (`process_data`, `process_data_patches`)

The numeric matrices handled by the external factorization library are an
abstract type `M`; the library itself is a record of pure functions
(`Lib`).  Each orchestrator records the sequence of external calls it
performs in a `trace`, whose entries appear in the order of the
corresponding statements in the source. -/

/-- One external call performed by an orchestrator.  The merge event
records the `mx` cap handed to `cse.merge_components` (`some n` for a
finite cap, `none` for `np.Inf`). -/
inductive StageEvent where
  | stopServer
  | startServer
  | preprocess
  | initComponents
  | spatialUpdate
  | temporalUpdate
  | mergeCall (mx : Option ℕ)
  | runPatches
  | orderComponents
  | saveBundle
  | loadBundle
  | zprojectCall
  | loadProj
  deriving DecidableEq, Repr

/-- The numeric factorization stages (preprocessing, initialization,
spatial update, temporal update, merging, and the patch map-reduce that
runs initialization/updates per patch). -/
def isNumericStage : StageEvent → Bool
  | .preprocess | .initComponents | .spatialUpdate | .temporalUpdate
  | .mergeCall _ | .runPatches => true
  | _ => false

/-- `true` only on merge events. -/
def isMergeEvent : StageEvent → Bool
  | .mergeCall _ => true
  | _ => false

/-- Output of `cse.preprocess_data(Yr, ...)`: `Yr, sn, g, psx`. -/
structure PreOut (M : Type) where
  Yr : M
  sn : M
  g : M
  psx : M
  deriving DecidableEq

/-- Output of `cse.initialize_components(Y, ...)`:
`Ain, Cin, b_in, f_in, center`. -/
structure InitOut (M : Type) where
  Ain : M
  Cin : M
  b_in : M
  f_in : M
  center : M
  deriving DecidableEq

/-- Output of `cse.update_spatial_components(...)`: `A, b, C` (the third
result rebinds the temporal matrix handed in). -/
structure SpatOut (M : Type) where
  A : M
  b : M
  C : M
  deriving DecidableEq

/-- Output of `cse.update_temporal_components(...)`:
`C, f, S, bl, c1, neurons_sn, g, YrA`. -/
structure TempOut (M : Type) where
  C : M
  f : M
  S : M
  bl : M
  c1 : M
  neurons_sn : M
  g : M
  YrA : M
  deriving DecidableEq

/-- Output of `cse.merge_components(...)`:
`A_m, C_m, nr_m, merged_ROIs, S_m, bl_m, c1_m, sn_m, g_m`. -/
structure MergeOut (M : Type) where
  A : M
  C : M
  nr_m : M
  merged_ROIs : M
  S : M
  bl : M
  c1 : M
  sn : M
  g : M
  deriving DecidableEq

/-- Output of `cse.order_components(A2, C2)`: `A_or, C_or, srt`. -/
structure OrderOut (M : Type) where
  A : M
  C : M
  srt : M
  deriving DecidableEq

/-- Output of `cse.map_reduce.run_CNMF_patches(...)`:
`A_tot, C_tot, b, f, sn_tot, opt_out`. -/
structure PatchOut (M : Type) where
  A_tot : M
  C_tot : M
  b : M
  f : M
  sn_tot : M
  opt_out : M
  deriving DecidableEq

/-- The external numeric library, as the pure call contract the
orchestrators rely on.  Only the data arguments wired between stages are
modelled; constant configuration arguments (`options`, `p`, `gSig`,
`thr`, `fast_merge`, iteration caps, the keyword `bl/c1/sn/g` extras) are
omitted, except for the merge cap `mx` which varies between call sites.
`emptyArr` stands for the literal `[]` the patched merge call passes for
`b`, `f` and `sn`.  `zproject` is `utils.zproject` (composed with the
transpose of line 207). -/
structure Lib (M : Type) where
  preprocess_data : M → PreOut M
  init_components : M → InitOut M
  update_spatial_components : M → M → M → M → M → SpatOut M
  update_temporal_components : M → M → M → M → M → TempOut M
  merge_components : M → M → M → M → M → M → M → Option ℕ → MergeOut M
  order_components : M → M → OrderOut M
  run_CNMF_patches : M → PatchOut M
  zproject : M → M
  emptyArr : M

/-- The contents of the persisted ResultBundle `<name>_cnmf.mat`:
`{A, C, YrA, S, bl}`. -/
structure Bundle (M : Type) where
  A : M
  C : M
  YrA : M
  S : M
  bl : M
  deriving DecidableEq

/-- Persistent state an orchestrator reads and writes: the ResultBundle
artifact (present with its contents, or absent) and the cached projection
image `<name>_proj.npy`. -/
structure OrchState (M : Type) where
  cnmfBundle : Option (Bundle M)
  projImage : Option M
  deriving DecidableEq

/-- What an orchestrator returns and observably does.  `contourArg` is
the spatial matrix handed to `contour` (from which the returned ROI list
is built); `C`, `zproj`, `S`, `Y`, `YrA` are the remaining components of
the returned tuple; `trace` lists the external calls in order;
`stAfter` is the persistent state after the call. -/
structure OrchResult (M : Type) where
  contourArg : M
  C : M
  zproj : M
  S : M
  Y : M
  YrA : M
  trace : List StageEvent
  stAfter : OrchState M
  deriving DecidableEq

/-- The shared tail of both orchestrators (lines 205-225 / 337-357):
compute or load the projection image, call `cse.order_components` on the
final `A2, C2` (its outputs are bound to `A_or, C_or, srt` and never used
afterwards), stop the server, run `contour` on `A2`, and return
`(rois, C2, zproj, S2, Y, YrA)`. -/
def finishOrch {M : Type} (lib : Lib M) (Y : M) (bund : Bundle M)
    (tr : List StageEvent) (st : OrchState M) : OrchResult M :=
  let zstep : M × List StageEvent × OrchState M :=
    match st.projImage with
    | none =>
      let z := lib.zproject Y
      (z, [.zprojectCall], { st with projImage := some z })
    | some z => (z, [.loadProj], st)
  let _ordered := lib.order_components bund.A bund.C
  { contourArg := bund.A
    C := bund.C
    zproj := zstep.1
    S := bund.S
    Y := Y
    YrA := bund.YrA
    trace := tr ++ zstep.2.1 ++ [.orderComponents, .stopServer]
    stAfter := zstep.2.2 }

/-- `process_data` (lines 85-225), with the cached arrays `Y` (cube) and
`Yr0` (flattened matrix) already loaded.  If `<name>_cnmf.mat` is absent
the numeric stages run in source order and the bundle is saved
(lines 94-196); otherwise the bundle is loaded verbatim
(lines 197-203). -/
def process_data {M : Type} (lib : Lib M) (Y Yr0 : M) (st : OrchState M) :
    OrchResult M :=
  match st.cnmfBundle with
  | none =>
    let pre := lib.preprocess_data Yr0
    let ini := lib.init_components Y
    let sp1 := lib.update_spatial_components pre.Yr ini.Cin ini.f_in ini.Ain pre.sn
    let te1 := lib.update_temporal_components pre.Yr sp1.A sp1.b sp1.C ini.f_in
    let mg := lib.merge_components pre.Yr sp1.A sp1.b te1.C te1.f te1.S pre.sn
      (some 100)
    let sp2 := lib.update_spatial_components pre.Yr mg.C te1.f mg.A pre.sn
    let te2 := lib.update_temporal_components pre.Yr sp2.A sp2.b sp2.C te1.f
    let bund : Bundle M := ⟨sp2.A, te2.C, te2.YrA, te2.S, te2.bl⟩
    finishOrch lib Y bund
      [.stopServer, .startServer, .preprocess, .initComponents,
       .spatialUpdate, .temporalUpdate, .mergeCall (some 100),
       .spatialUpdate, .temporalUpdate, .saveBundle]
      { st with cnmfBundle := some bund }
  | some bund =>
    finishOrch lib Y bund [.loadBundle] st

/-- `process_data_patches` (lines 228-357).  On the compute path the
patch map-reduce runs, then the global merge with `mx=np.Inf` (line 301)
whose `b`, `f` and `S`, `sn` arguments are `[]`, `[]` and `C_tot`, `[]`
(line 298), then the global spatial and temporal re-updates; the bundle
path is identical to `process_data`. -/
def process_data_patches {M : Type} (lib : Lib M) (Y Yr0 : M)
    (st : OrchState M) : OrchResult M :=
  match st.cnmfBundle with
  | none =>
    let pt := lib.run_CNMF_patches Yr0
    let mg := lib.merge_components Yr0 pt.A_tot lib.emptyArr pt.C_tot
      lib.emptyArr pt.C_tot lib.emptyArr none
    let sp := lib.update_spatial_components Yr0 mg.C pt.f mg.A pt.sn_tot
    let te := lib.update_temporal_components Yr0 sp.A sp.b sp.C pt.f
    let bund : Bundle M := ⟨sp.A, te.C, te.YrA, te.S, te.bl⟩
    finishOrch lib Y bund
      [.stopServer, .startServer, .runPatches, .mergeCall none,
       .spatialUpdate, .temporalUpdate, .saveBundle]
      { st with cnmfBundle := some bund }
  | some bund =>
    finishOrch lib Y bund [.loadBundle] st

/-! ## The per-patch initial component target (`process_data_patches`,
lines 250-252, and `NCPUS`, line 42) -/

/-- `NCPUS = int(mp.cpu_count()/2)` as a function of the machine's CPU
count (Python 2 integer division). -/
def NCPUS_of (cpuCount : ℕ) : ℕ := cpuCount / 2

/-- `K=int(nrois_init/NCPUS/2.0)` (line 251): under Python 2,
`nrois_init/NCPUS` is integer floor division and `int(.../2.0)`
truncates the nonnegative float, so the value is a double floor
division. -/
def patchesInitK (cpuCount nrois_init : ℕ) : ℕ :=
  nrois_init / NCPUS_of cpuCount / 2

/-! ## Concrete instances used to exhibit behaviours -/

/-- A two-frame dataset on the tiff path (no raw binary available). -/
def hdTiff : HaussioData := ⟨[0, 1], [], false⟩

/-- A two-frame dataset on the raw-binary path. -/
def hdRaw : HaussioData := ⟨[], [0, 1], true⟩

/-- A concrete numeric library over `M = ℕ` whose ordering step visibly
changes its inputs (`order_components a c = (a+1, c+1, 0)`), so ordered
and pre-ordering matrices can be told apart. -/
def libN : Lib ℕ where
  preprocess_data := fun yr => ⟨yr, 0, 0, 0⟩
  init_components := fun _ => ⟨0, 0, 0, 0, 0⟩
  update_spatial_components := fun _ _ _ _ _ => ⟨0, 0, 0⟩
  update_temporal_components := fun _ _ _ _ _ => ⟨0, 0, 0, 0, 0, 0, 0, 0⟩
  merge_components := fun _ _ _ _ _ _ _ _ => ⟨0, 0, 0, 0, 0, 0, 0, 0, 0⟩
  order_components := fun a c => ⟨a + 1, c + 1, 0⟩
  run_CNMF_patches := fun _ => ⟨0, 0, 0, 0, 0, 0⟩
  zproject := fun _ => 0
  emptyArr := 0

/-- A stored ResultBundle with pairwise distinct contents. -/
def bundN : Bundle ℕ := ⟨10, 20, 30, 40, 50⟩

/-- Persistent state in which `<name>_cnmf.mat` and the projection image
both exist. -/
def stBund : OrchState ℕ := ⟨some bundN, some 7⟩

/-- Persistent state in which no artifact exists yet. -/
def stFresh : OrchState ℕ := ⟨none, none⟩

/-- A tracer that always returns one triangle, satisfying the external
tracer's closed-contour contract. -/
def traceTri : Tracer := fun _ _ _ _ => [[[0, 0], [1, 0], [0, 1]]]

/-- A tracer that never finds a contour. -/
def traceNone : Tracer := fun _ _ _ _ => []

/-- A 2-pixel, 2-component weight matrix. -/
def Atwo : List (List ℚ) := [[1, 0], [0, 2]]

/-- A 2-pixel, 1-component weight matrix whose only column is all
zero. -/
def Azero : List (List ℚ) := [[0], [0]]

/-- The bundle-replay behaviour claimed for an orchestrator run `r`
against a stored bundle `b`: no numeric stage is invoked, the spatial
matrix handed to `contour`, the returned temporal traces, spikes and
residual are the stored values, and the stored bundle is left in
place. -/
def replaysBundle {M : Type} (r : OrchResult M) (b : Bundle M) : Prop :=
  r.trace.filter isNumericStage = [] ∧
  r.contourArg = b.A ∧ r.C = b.C ∧ r.S = b.S ∧ r.YrA = b.YrA ∧
  r.stAfter.cnmfBundle = some b

/-! ## Theorems -/

/-- C1 (counterexample): with frame files `[0, 1]` and the length-1 mask
`[false]`, the conversion keeps only frame `0`, whereas the full-length
mask `[false, false]` keeps both frames — so a short mask does NOT behave
as if padded with "keep" (`false`) values. -/
theorem tiffs_short_mask_differs_from_keep_padding :
    tiffs_to_cnmf hdTiff ⟨false, false⟩ (some [false]) false =
      .ok (⟨true, true⟩, some [0]) ∧
    tiffs_to_cnmf hdTiff ⟨false, false⟩ (some [false, false]) false =
      .ok (⟨true, true⟩, some [0, 1]) ∧
    ([0] : List ℕ) ≠ [0, 1] :=
  ⟨rfl, rfl, by decide⟩

/-- C1 (amended): on the frame-file path, a mask of length `k < N`
behaves identically to a mask of length `N` with `true` ("exclude")
appended for indices `k..N-1`: the tail frames are dropped, because the
code pads with `np.ones(...).astype(np.bool)`. -/
theorem tiffs_short_mask_pads_exclude (hd : HaussioData) (fs : CacheFS)
    (mask : List Bool) (force : Bool)
    (htiff : hd.rawAvailable = false)
    (hlen : mask.length < hd.filenames.length) :
    tiffs_to_cnmf hd fs (some mask) force =
    tiffs_to_cnmf hd fs
      (some (mask ++ List.replicate (hd.filenames.length - mask.length) true))
      force := by
  have hpadded : mask_full_pad hd.filenames.length
      (mask ++ List.replicate (hd.filenames.length - mask.length) true) =
      mask ++ List.replicate (hd.filenames.length - mask.length) true := by
    unfold mask_full_pad
    rw [if_neg (by
      simp only [List.length_append, List.length_replicate]; omega)]
  have hshort : mask_full_pad hd.filenames.length mask =
      mask ++ List.replicate (hd.filenames.length - mask.length) true := by
    unfold mask_full_pad
    rw [if_pos hlen]
  have hsel : selectedFilenames hd (some mask) =
      selectedFilenames hd
        (some (mask ++
          List.replicate (hd.filenames.length - mask.length) true)) := by
    show keepUnmasked hd.filenames (mask_full_pad hd.filenames.length mask) =
      keepUnmasked hd.filenames (mask_full_pad hd.filenames.length
        (mask ++ List.replicate (hd.filenames.length - mask.length) true))
    rw [hpadded, hshort]
  simp [tiffs_to_cnmf, htiff, hsel]

/-- C1 (witness for the amended theorem). -/
theorem tiffs_short_mask_pads_exclude_witness :
    (hdTiff.rawAvailable = false ∧
      ([false] : List Bool).length < hdTiff.filenames.length) ∧
    tiffs_to_cnmf hdTiff ⟨false, false⟩ (some [false]) false =
    tiffs_to_cnmf hdTiff ⟨false, false⟩
      (some ([false] ++
        List.replicate (hdTiff.filenames.length - 1) true)) false :=
  ⟨⟨rfl, by decide⟩,
   tiffs_short_mask_pads_exclude hdTiff ⟨false, false⟩ [false] false rfl
     (by decide)⟩

/-- C4 (counterexample): with `<name>_Y.npy` present, `<name>_Yr.npy`
absent and `force` unset, `tiffs_to_cnmf` skips (writes nothing, second
component `none`) and leaves `_Yr.npy` missing — so it neither ensures
both cache files exist on return nor restricts the skip to the case where
both already exist. -/
theorem tiffs_skip_ignores_yr_artifact :
    tiffs_to_cnmf hdTiff ⟨true, false⟩ none false =
      .ok (⟨true, false⟩, none) ∧
    (⟨true, false⟩ : CacheFS).yrExists = false :=
  ⟨rfl, rfl⟩

/-- C4 (amended): for every successful call, the conversion is skipped
(no writes) exactly when `<name>_Y.npy` already exists and `force` is
unset — `<name>_Yr.npy` is not consulted; whenever the conversion runs,
both cache files exist afterwards; a skip leaves the file system
unchanged. -/
theorem tiffs_skip_on_y_only (hd : HaussioData) (fs : CacheFS)
    (mask : Option (List Bool)) (force : Bool) (fs' : CacheFS)
    (w : Option (List ℕ))
    (h : tiffs_to_cnmf hd fs mask force = Except.ok (fs', w)) :
    (w = none ↔ (fs.yExists = true ∧ force = false)) ∧
    (w ≠ none → fs'.yExists = true ∧ fs'.yrExists = true) ∧
    (w = none → fs' = fs) := by
  unfold tiffs_to_cnmf at h
  split at h
  next hcond =>
    have hw : fs' = (⟨true, true⟩ : CacheFS) ∧ ∃ x, w = some x := by
      split at h
      · simp only [Except.ok.injEq, Prod.mk.injEq] at h
        exact ⟨h.1.symm, ⟨_, h.2.symm⟩⟩
      · split at h
        · simp at h
        · simp only [Except.ok.injEq, Prod.mk.injEq] at h
          exact ⟨h.1.symm, ⟨_, h.2.symm⟩⟩
    obtain ⟨rfl, x, rfl⟩ := hw
    refine ⟨?_, fun _ => ⟨rfl, rfl⟩, ?_⟩
    · constructor
      · intro hx; simp at hx
      · rintro ⟨hy, hf⟩
        rw [hy, hf] at hcond
        simp at hcond
    · intro hx; simp at hx
  next hcond =>
    simp only [Except.ok.injEq, Prod.mk.injEq] at h
    obtain ⟨rfl, rfl⟩ := h
    have hyf : fs.yExists = true ∧ force = false := by
      rcases hyy : fs.yExists <;> rcases hff : force <;>
        simp [hyy, hff] at hcond ⊢
    exact ⟨by simp [hyf], fun hne => absurd rfl hne, fun _ => rfl⟩

/-- C4 (witness for the amended theorem). -/
theorem tiffs_skip_on_y_only_witness :
    tiffs_to_cnmf hdTiff ⟨true, false⟩ none false =
      Except.ok ((⟨true, false⟩ : CacheFS), (none : Option (List ℕ))) ∧
    ((none : Option (List ℕ)) = none ↔
      ((⟨true, false⟩ : CacheFS).yExists = true ∧ false = false)) ∧
    ((none : Option (List ℕ)) ≠ none →
      (⟨true, false⟩ : CacheFS).yExists = true ∧
      (⟨true, false⟩ : CacheFS).yrExists = true) ∧
    ((none : Option (List ℕ)) = none →
      (⟨true, false⟩ : CacheFS) = (⟨true, false⟩ : CacheFS)) :=
  ⟨rfl, tiffs_skip_on_y_only hdTiff ⟨true, false⟩ none false ⟨true, false⟩
    none rfl⟩

/-- C9: on the raw-binary path the exclusion mask is applied with
`np.invert(mask)` and used as a boolean index directly: `mask=None`
raises (`np.invert(None)` is a `TypeError`) instead of keeping all
frames, and a mask shorter than the frame count is not padded — the
mismatched boolean index raises as well. -/
theorem raw_path_mask_strict (hd : HaussioData) (fs : CacheFS)
    (m : List Bool) (hraw : hd.rawAvailable = true)
    (hy : fs.yExists = false)
    (hlen : m.length < hd.rawFrames.length) :
    isError (tiffs_to_cnmf hd fs none false) = true ∧
    isError (tiffs_to_cnmf hd fs (some m) false) = true := by
  constructor <;>
    simp [tiffs_to_cnmf, hraw, hy, rawSelect, isError, Nat.ne_of_lt hlen]

/-- C9 (witness). -/
theorem raw_path_mask_strict_witness :
    (hdRaw.rawAvailable = true ∧ (⟨false, false⟩ : CacheFS).yExists = false ∧
      ([false] : List Bool).length < hdRaw.rawFrames.length) ∧
    isError (tiffs_to_cnmf hdRaw ⟨false, false⟩ none false) = true ∧
    isError (tiffs_to_cnmf hdRaw ⟨false, false⟩ (some [false]) false) =
      true :=
  ⟨⟨rfl, rfl, by decide⟩,
   raw_path_mask_strict hdRaw ⟨false, false⟩ [false] rfl rfl (by decide)⟩

/-- C5: for every spatial weight matrix, dimensions with
`d1 * d2 = row count` and threshold, and a tracer honouring the
closed-contour contract (every traced contour has at least 3 points),
`contour` returns exactly one polygon per component, in input column
order, each with at least 3 points. -/
theorem contour_count_and_order (trace : Tracer) (A : List (List ℚ))
    (d1 d2 : ℕ) (thr : ℚ) (_hdim : d1 * d2 = dOf A)
    (htrace : ∀ g p, p ∈ trace d1 d2 g thr → 3 ≤ p.length) :
    (contour trace A d1 d2 thr).length = nrOf A ∧
    (∀ p ∈ contour trace A d1 d2 thr, 3 ≤ p.length) ∧
    (∀ i, i < nrOf A →
      (contour trace A d1 d2 thr)[i]? =
        some (componentPolygon trace A d1 d2 thr i)) := by
  refine ⟨by simp [contour], ?_, ?_⟩
  · intro p hp
    simp only [contour, List.mem_map, List.mem_range] at hp
    obtain ⟨i, _, rfl⟩ := hp
    unfold componentPolygon
    cases hcs : trace d1 d2 (Bmat A i d1 d2) thr with
    | nil => decide
    | cons c cs => exact htrace _ c (hcs ▸ List.mem_cons_self c cs)
  · intro i hi
    simp [contour, List.getElem?_map, List.getElem?_range, hi]

/-- C5 (witness). -/
theorem contour_count_and_order_witness :
    (1 * 2 = dOf Atwo ∧
      ∀ g p, p ∈ traceTri 1 2 g (9 / 10) → 3 ≤ p.length) ∧
    ((contour traceTri Atwo 1 2 (9 / 10)).length = nrOf Atwo ∧
     (∀ p ∈ contour traceTri Atwo 1 2 (9 / 10), 3 ≤ p.length) ∧
     (∀ i, i < nrOf Atwo →
       (contour traceTri Atwo 1 2 (9 / 10))[i]? =
         some (componentPolygon traceTri Atwo 1 2 (9 / 10) i))) :=
  ⟨⟨by decide, fun g p hp => by
      simp only [traceTri, List.mem_singleton] at hp
      subst hp; decide⟩,
   contour_count_and_order traceTri Atwo 1 2 (9 / 10) (by decide)
     (fun g p hp => by
       simp only [traceTri, List.mem_singleton] at hp
       subst hp; decide)⟩

/-- C6: for any component whose contour tracing yields no contour (the
all-zero weight column being the degenerate instance), `contour`
succeeds and emits for it the fixed placeholder polygon: 3 points, all
coordinates zero. -/
theorem contour_empty_trace_fallback (trace : Tracer)
    (A : List (List ℚ)) (d1 d2 : ℕ) (thr : ℚ) (i : ℕ)
    (hi : i < nrOf A)
    (hempty : trace d1 d2 (Bmat A i d1 d2) thr = []) :
    (contour trace A d1 d2 thr)[i]? = some fallbackPoly ∧
    fallbackPoly.length = 3 ∧ (∀ pt ∈ fallbackPoly, ∀ c ∈ pt, c = 0) := by
  refine ⟨?_, by decide, by decide⟩
  simp [contour, List.getElem?_map, List.getElem?_range, hi,
    componentPolygon, hempty]

/-- C6 (witness): the all-zero column of `Azero` with a tracer that finds
no contour. -/
theorem contour_empty_trace_fallback_witness :
    (0 < nrOf Azero ∧ traceNone 2 1 (Bmat Azero 0 2 1) (9 / 10) = []) ∧
    ((contour traceNone Azero 2 1 (9 / 10))[0]? = some fallbackPoly ∧
     fallbackPoly.length = 3 ∧
     (∀ pt ∈ fallbackPoly, ∀ c ∈ pt, c = 0)) :=
  ⟨⟨by decide, rfl⟩,
   contour_empty_trace_fallback traceNone Azero 2 1 (9 / 10) 0 (by decide)
     rfl⟩

/-- C2 (counterexample): with the stored bundle `⟨10, 20, 30, 40, 50⟩`
and a library whose ordering step maps `(A, C)` to `(A+1, C+1)`,
`process_data` returns temporal traces `20` and contours the matrix `10`
— the pre-ordering values — not the ordering step's outputs `21` and
`11`. -/
theorem process_data_not_ordered_outputs :
    ¬ ((process_data libN 0 0 stBund).C =
         (libN.order_components bundN.A bundN.C).C ∧
       (process_data libN 0 0 stBund).contourArg =
         (libN.order_components bundN.A bundN.C).A) := by
  decide

/-- C2 (amended): `process_data` does invoke the ordering step, but its
outputs are discarded: the temporal traces it returns and the spatial
matrix it converts to ROI polygons are the pre-ordering final matrices
(the `C` and `A` of the persisted/loaded ResultBundle). -/
theorem process_data_returns_preorder_matrices {M : Type} (lib : Lib M)
    (Y Yr0 : M) (st : OrchState M) (b : Bundle M)
    (h : (process_data lib Y Yr0 st).stAfter.cnmfBundle = some b) :
    (process_data lib Y Yr0 st).C = b.C ∧
    (process_data lib Y Yr0 st).contourArg = b.A ∧
    StageEvent.orderComponents ∈ (process_data lib Y Yr0 st).trace := by
  cases hb : st.cnmfBundle <;> cases hp : st.projImage <;>
    simp [process_data, finishOrch, hb, hp] at h ⊢ <;>
    simp [← h]

/-- C2 (witness for the amended theorem). -/
theorem process_data_returns_preorder_matrices_witness :
    (process_data libN 0 0 stBund).stAfter.cnmfBundle = some bundN ∧
    ((process_data libN 0 0 stBund).C = bundN.C ∧
     (process_data libN 0 0 stBund).contourArg = bundN.A ∧
     StageEvent.orderComponents ∈ (process_data libN 0 0 stBund).trace) :=
  ⟨rfl, process_data_returns_preorder_matrices libN 0 0 stBund bundN rfl⟩

/-- C3: when the ResultBundle artifact `<name>_cnmf.mat` already exists,
both orchestrators invoke no numeric stage, and the `A`, `C`, `YrA`,
`S`, `bl` values they use and return are exactly the stored bundle's
values (the bundle is left in place, so its `bl` is the loaded one). -/
theorem orchestrators_replay_existing_bundle {M : Type} (lib : Lib M)
    (Y Yr0 : M) (st : OrchState M) (b : Bundle M)
    (h : st.cnmfBundle = some b) :
    replaysBundle (process_data lib Y Yr0 st) b ∧
    replaysBundle (process_data_patches lib Y Yr0 st) b := by
  cases hp : st.projImage <;>
    simp [replaysBundle, process_data, process_data_patches, finishOrch,
      h, hp, isNumericStage]

/-- C3 (witness). -/
theorem orchestrators_replay_existing_bundle_witness :
    stBund.cnmfBundle = some bundN ∧
    (replaysBundle (process_data libN 0 0 stBund) bundN ∧
     replaysBundle (process_data_patches libN 0 0 stBund) bundN) :=
  ⟨rfl, orchestrators_replay_existing_bundle libN 0 0 stBund bundN rfl⟩

/-- C7: on the whole-frame path with no pre-existing ResultBundle, the
numeric stages run in exactly this order: preprocessing, component
initialization, spatial update, temporal update, merging (with cap
`mx=100`), spatial update, temporal update. -/
theorem process_data_stage_order {M : Type} (lib : Lib M) (Y Yr0 : M)
    (st : OrchState M) (h : st.cnmfBundle = none) :
    (process_data lib Y Yr0 st).trace.filter isNumericStage =
      [.preprocess, .initComponents, .spatialUpdate, .temporalUpdate,
       .mergeCall (some 100), .spatialUpdate, .temporalUpdate] := by
  cases hp : st.projImage <;>
    simp [process_data, finishOrch, h, hp, isNumericStage]

/-- C7 (witness). -/
theorem process_data_stage_order_witness :
    stFresh.cnmfBundle = none ∧
    (process_data libN 0 0 stFresh).trace.filter isNumericStage =
      [.preprocess, .initComponents, .spatialUpdate, .temporalUpdate,
       .mergeCall (some 100), .spatialUpdate, .temporalUpdate] :=
  ⟨rfl, process_data_stage_order libN 0 0 stFresh rfl⟩

/-- C8: on the patched path with no pre-existing ResultBundle, exactly
one merge call happens after the patch reduction, and it carries the
unbounded cap (`mx = np.Inf`, modelled as `none`). -/
theorem patches_merge_unbounded_cap {M : Type} (lib : Lib M) (Y Yr0 : M)
    (st : OrchState M) (h : st.cnmfBundle = none) :
    (process_data_patches lib Y Yr0 st).trace.filter isMergeEvent =
      [.mergeCall none] := by
  cases hp : st.projImage <;>
    simp [process_data_patches, finishOrch, h, hp, isMergeEvent]

/-- C8 (witness). -/
theorem patches_merge_unbounded_cap_witness :
    stFresh.cnmfBundle = none ∧
    (process_data_patches libN 0 0 stFresh).trace.filter isMergeEvent =
      [.mergeCall none] :=
  ⟨rfl, patches_merge_unbounded_cap libN 0 0 stFresh rfl⟩

/-- C10: the per-patch initial component target
`K = int(nrois_init/NCPUS/2.0)` with `NCPUS = int(cpu_count/2)` depends
on the executing machine's CPU count: for `nrois_init = 400` a 4-CPU
machine gets `K = 100` while an 8-CPU machine gets `K = 50`. -/
theorem patches_initK_depends_on_cpu_count :
    patchesInitK 4 400 = 100 ∧ patchesInitK 8 400 = 50 ∧
    patchesInitK 4 400 ≠ patchesInitK 8 400 := by
  decide

end Haussmeister
